import Mathlib

/-!
Shallow embedding of `static/js/admin.js` from the Admin_Dashboard_website
repository, together with proofs about its event handlers.

Modelling conventions:
* A jQuery AJAX interaction is a pure function from the page state visible to
  the handler, the user's input, and the network outcome, to the new page
  state plus the list of toast notifications emitted during the interaction.
* The network outcome of `$.ajax` is `AjaxResult ρ`: either the success
  callback fires with a parsed response of type `ρ`, or the error callback
  fires with the transport error string `error`.
* JS numbers that the script only ever treats as integers (timestamps,
  counts, ids) are modelled as `Nat`.
* A crucial point of fidelity for the failure branches: the callbacks passed
  to `$.ajax` are plain `function`s and no `context:` option is given, so
  inside `success:`/`error:` the value of `this` is the merged Ajax settings
  object, NOT the DOM element the outer `change` handler ran on (jQuery
  documents this: "if context is not specified, this is a reference to the
  Ajax settings themselves").  Consequently:
    - `$(this).val(...)` (admin.js lines 76 and 82) wraps the settings object;
      jQuery's `.val` setter starts with `if (this.nodeType !== 1) return;`,
      and a plain object has no `nodeType`, so the call never touches the
      `<select>` element — it is a DOM no-op.
    - `$(this).prop('checked', ...)` (lines 110, 116, 143, 149) reaches
      `jQuery.prop`, which only rejects nodeType 2/3/8 and otherwise performs
      `elem[name] = value`; it therefore writes a `checked` property onto the
      plain settings object and never touches the checkbox element.
    - `$(this).data('original-status')` (lines 76, 82) reads from the settings
      object, which carries no such data, and yields `undefined`.
  The embeddings below keep an explicit `settingsChecked` field where the
  misdirected `.prop` write lands, so the modelled failure branches perform
  exactly the writes the source performs, on the objects it performs them on.
-/

namespace AdminDashboard

/-- One toast notification as created by `showToast(title, message, type)`. -/
structure Toast where
  title : String
  message : String
  type : String
  deriving Repr, DecidableEq

/-- Outcome of one `$.ajax` call: the success callback receives a parsed
response of type `ρ`; the error callback receives the transport error text. -/
inductive AjaxResult (ρ : Type) where
  | success (response : ρ)
  | transportError (error : String)
  deriving Repr, DecidableEq

/-- Response body of `POST /dashboard/orders/{id}/update-status`
(fields `success`, `new_status`, `message`). -/
structure StatusResponse where
  success : Bool
  new_status : String
  message : String
  deriving Repr, DecidableEq

/-- Response body of the two toggle endpoints (fields `success`, `message`). -/
structure ToggleResponse where
  success : Bool
  message : String
  deriving Repr, DecidableEq

/-- The status badge of an order row: its CSS class list and its text. -/
structure Badge where
  classes : List String
  text : String
  deriving Repr, DecidableEq

/-- The DOM state an `update-status` interaction touches: the `<select>`
element's value, the `.status-text` label's content, and the order's badge. -/
structure OrderRow where
  selectValue : String
  labelText : String
  badge : Badge
  deriving Repr, DecidableEq

/-- The pending markup written by
`originalText.html('<span class="spinner-border spinner-border-sm"></span> Updating...')`. -/
def spinnerHtml : String :=
  "<span class=\"spinner-border spinner-border-sm\"></span> Updating..."

/-- The five badge classes stripped by
`badge.removeClass('bg-primary bg-warning bg-info bg-success bg-danger')`. -/
def removedBadgeClasses : List String :=
  ["bg-primary", "bg-warning", "bg-info", "bg-success", "bg-danger"]

/-- The `badgeClass` cascade of admin.js lines 62-67: start from
`'bg-secondary'` and overwrite for each of the five recognised statuses. -/
def badgeClass (new_status : String) : String :=
  if new_status = "pending" then "bg-primary"
  else if new_status = "processing" then "bg-warning"
  else if new_status = "confirmed" then "bg-info"
  else if new_status = "delivered" then "bg-success"
  else if new_status = "cancelled" then "bg-danger"
  else "bg-secondary"

/-- `badge.removeClass(...)` followed by `badge.addClass(c)`. -/
def applyBadgeClass (b : Badge) (c : String) (t : String) : Badge :=
  { classes := (b.classes.filter (fun s => s ∉ removedBadgeClasses)) ++ [c]
    text := t }

/-- The `.update-status` change handler (admin.js lines 37-86) as one
interaction.  Arguments: `preValue`/`preText` are the select value and label
text immediately before the user's change, `badge` the order's badge,
`newStatus` the value the user picked (the `change` event fires after the
select already holds it), `result` the network outcome.  Returns the row
after the interaction and the toasts shown.

The failure branches follow the source exactly: in the `success:` callback
with `response.success == false`, line 76 `$(this).val($(this).data('original-status'))`
is a DOM no-op (see the module docstring: `this` is the Ajax settings
object), and nothing restores the label, so the spinner markup stays; in the
`error:` callback, line 82 is the same no-op but line 83
`originalText.text(originalStatus)` does restore the label through the
closed-over variables. -/
def updateStatusInteraction (preValue preText : String) (badge : Badge)
    (newStatus : String) (result : AjaxResult StatusResponse) :
    OrderRow × List Toast :=
  let row0 : OrderRow := { selectValue := newStatus, labelText := preText, badge := badge }
  let originalStatus := row0.labelText
  let row1 : OrderRow := { row0 with labelText := spinnerHtml }
  match result with
  | .success resp =>
    if resp.success then
      ({ row1 with
          labelText := resp.new_status.toUpper
          badge := applyBadgeClass row1.badge (badgeClass resp.new_status)
            resp.new_status.toUpper },
       [⟨"Success", "Order status updated successfully", "success"⟩])
    else
      (row1, [⟨"Error", resp.message, "danger"⟩])
  | .transportError error =>
      ({ row1 with labelText := originalStatus },
       [⟨"Error", "Failed to update status: " ++ error, "danger"⟩])

/-- The DOM state a boolean-toggle interaction touches: the checkbox's
checked state and the row's status badge. -/
structure ToggleRow where
  checked : Bool
  badgeClasses : List String
  badgeText : String
  deriving Repr, DecidableEq

/-- Result of a toggle interaction.  `settingsChecked` records the `checked`
property that the failure branches write onto the Ajax settings object via
the misbound `$(this).prop('checked', ...)` (see the module docstring);
`none` means no such write happened. -/
structure ToggleOutcome where
  row : ToggleRow
  toasts : List Toast
  settingsChecked : Option Bool
  deriving Repr, DecidableEq

/-- The `.toggle-active` change handler (admin.js lines 89-119).  `preChecked`
is the checkbox state immediately before the user's toggle; the `change`
event fires after the flip, so the handler reads `isActive = !preChecked`
from `$(this).is(':checked')`.  On failure (either kind) the source runs
`$(this).prop('checked', !isActive)` inside the Ajax callback, where `this`
is the settings object, so the write lands in `settingsChecked` and the DOM
checkbox keeps the post-toggle value. -/
def toggleActiveInteraction (preChecked : Bool) (badgeClasses : List String)
    (badgeText : String) (result : AjaxResult ToggleResponse) : ToggleOutcome :=
  let isActive := !preChecked
  let row0 : ToggleRow := { checked := isActive, badgeClasses := badgeClasses
                            badgeText := badgeText }
  match result with
  | .success resp =>
    if resp.success then
      { row := { row0 with
          badgeClasses := (row0.badgeClasses.filter
              (fun s => s ∉ ["bg-success", "bg-danger"])) ++
            [if isActive then "bg-success" else "bg-danger"]
          badgeText := if isActive then "Active" else "Inactive" }
        toasts := [⟨"Success",
          "User " ++ (if isActive then "activated" else "deactivated") ++
            " successfully", "success"⟩]
        settingsChecked := none }
    else
      { row := row0
        toasts := [⟨"Error", resp.message, "danger"⟩]
        settingsChecked := some (!isActive) }
  | .transportError error =>
      { row := row0
        toasts := [⟨"Error", "Failed to update user status: " ++ error, "danger"⟩]
        settingsChecked := some (!isActive) }

/-- The `.toggle-approval` change handler (admin.js lines 122-152), identical
in shape to `toggleActiveInteraction` with approval wording and badge
classes `bg-success`/`bg-warning`. -/
def toggleApprovalInteraction (preChecked : Bool) (badgeClasses : List String)
    (badgeText : String) (result : AjaxResult ToggleResponse) : ToggleOutcome :=
  let isApproved := !preChecked
  let row0 : ToggleRow := { checked := isApproved, badgeClasses := badgeClasses
                            badgeText := badgeText }
  match result with
  | .success resp =>
    if resp.success then
      { row := { row0 with
          badgeClasses := (row0.badgeClasses.filter
              (fun s => s ∉ ["bg-success", "bg-warning"])) ++
            [if isApproved then "bg-success" else "bg-warning"]
          badgeText := if isApproved then "Approved" else "Pending" }
        toasts := [⟨"Success",
          "Review " ++ (if isApproved then "approved" else "unapproved") ++
            " successfully", "success"⟩]
        settingsChecked := none }
    else
      { row := row0
        toasts := [⟨"Error", resp.message, "danger"⟩]
        settingsChecked := some (!isApproved) }
  | .transportError error =>
      { row := row0
        toasts := [⟨"Error", "Failed to update review: " ++ error, "danger"⟩]
        settingsChecked := some (!isApproved) }

/-- `showToast`'s element id, admin.js line 217:
`const toastId = 'toast-' + Date.now();` with `Date.now()` in milliseconds. -/
def toastId (nowMs : Nat) : String :=
  "toast-" ++ toString nowMs

/-- The ids created by a sequence of `showToast` calls in one page session,
one call per recorded `Date.now()` millisecond value. -/
def sessionToastIds (times : List Nat) : List String :=
  times.map toastId

/-- Client-side theme state: the document root's `data-bs-theme` attribute
(`none` when the attribute is absent, as `$('html').attr(...)` then yields
`undefined`) and the `localStorage` entry under key `theme`. -/
structure ThemeState where
  attr : Option String
  storage : Option String
  deriving Repr, DecidableEq

/-- The `.theme-switcher` click handler (admin.js lines 304-313): read the
current attribute, pick `'light'` when it is `'dark'` and `'dark'` otherwise,
apply it, persist it, and toast. -/
def themeToggle (s : ThemeState) : ThemeState × Toast :=
  let newTheme := if s.attr = some "dark" then "light" else "dark"
  ({ attr := some newTheme, storage := some newTheme },
   ⟨"Theme Changed", "Switched to " ++ newTheme ++ " mode", "info"⟩)

/-- The saved-theme check on page load (admin.js lines 316-319): apply the
stored theme to the document root when one exists. -/
def applySavedTheme (s : ThemeState) : ThemeState :=
  match s.storage with
  | some savedTheme => { s with attr := some savedTheme }
  | none => s

/-- Observable outcome of one `.bulk-action` click: toasts shown, the
`confirm(...)` prompt issued (if any), the `console.log` record (if any), and
the HTTP requests issued (the handler is a placeholder and issues none). -/
structure BulkOutcome where
  toasts : List Toast
  confirmPrompt : Option String
  logged : Option (String × List String)
  requests : List String
  deriving Repr, DecidableEq

/-- The `.bulk-action` click handler (admin.js lines 273-290).
`checkedValues` is the list of values of the currently checked
`.bulk-select` checkboxes, in document order; `confirmResult` is the user's
answer to the `confirm` dialog (relevant only when one is shown). -/
def bulkActionHandler (action : String) (checkedValues : List String)
    (confirmResult : Bool) : BulkOutcome :=
  let selectedIds := checkedValues
  if selectedIds.length = 0 then
    { toasts := [⟨"Warning", "Please select items to perform this action", "warning"⟩]
      confirmPrompt := none, logged := none, requests := [] }
  else
    let prompt := "Are you sure you want to " ++ action ++ " " ++
      toString selectedIds.length ++ " selected item(s)?"
    if confirmResult then
      { toasts := [], confirmPrompt := some prompt
        logged := some ("Bulk " ++ action ++ " for IDs:", selectedIds)
        requests := [] }
    else
      { toasts := [], confirmPrompt := some prompt, logged := none, requests := [] }

/-- Zero padding as performed inside JS number formatting (`toISOString`
fields, fraction digits): prepend `'0'` until the decimal rendering of `n`
is `width` characters long. -/
def zeroPad (width n : Nat) : String :=
  ⟨List.replicate (width - (Nat.repr n).length) '0' ++ (Nat.repr n).data⟩

/-- Insert a comma after every second character, walking a reversed digit
list (helper for the en-IN grouping of `toLocaleString`). -/
def groupTwoRev : List Char → List Char
  | [] => []
  | [c] => [c]
  | [c1, c2] => [c1, c2]
  | c1 :: c2 :: c3 :: rest => c1 :: c2 :: ',' :: groupTwoRev (c3 :: rest)

/-- `Number.prototype.toLocaleString('en-IN')` on a whole number: the last
three digits form one group, the remaining digits are grouped in twos. -/
def toLocaleStringEnIN (n : Nat) : String :=
  let ds := (toString n).data
  if ds.length ≤ 3 then ⟨ds⟩
  else ⟨(groupTwoRev (ds.take (ds.length - 3)).reverse).reverse ++
    ',' :: ds.drop (ds.length - 3)⟩

/-- `Number.prototype.toFixed(2)`; the JS float is modelled by its value in
hundredths (exact for the currency amounts this script displays). -/
def toFixedTwo (hundredths : Nat) : String :=
  toString (hundredths / 100) ++ "." ++ zeroPad 2 (hundredths % 100)

/-- The `stats` object of a dashboard-stats response.  `avg_order_value` is a
JS float rendered with `toFixed(2)`; it is modelled in hundredths. -/
structure Stats where
  order_count : Nat
  revenue : Nat
  avg_order_value : Nat
  new_customers : Nat
  deriving Repr, DecidableEq

/-- Response body of `GET /api/dashboard/stats?period=today`. -/
structure StatsResponse where
  success : Bool
  stats : Stats
  deriving Repr, DecidableEq

/-- The four `[data-stat=...]` display slots written by `updateStatsDisplay`. -/
structure StatsDisplay where
  orders : String
  revenue : String
  avgOrder : String
  customers : String
  deriving Repr, DecidableEq

/-- `updateStatsDisplay(stats)` (admin.js lines 197-202). -/
def updateStatsDisplay (stats : Stats) : StatsDisplay :=
  { orders := toString stats.order_count
    revenue := "₹" ++ toLocaleStringEnIN stats.revenue
    avgOrder := "₹" ++ toFixedTwo stats.avg_order_value
    customers := toString stats.new_customers }

/-- One tick of `updateDashboardStats` (admin.js lines 183-194): the `$.ajax`
call passes only a `success:` callback, so a transport error runs no callback
at all, and a response with `success == false` takes no action either.
Returns the display after the tick and the toasts shown (always none). -/
def dashboardStatsTick (display : StatsDisplay)
    (result : AjaxResult StatsResponse) : StatsDisplay × List Toast :=
  match result with
  | .success resp =>
      if resp.success then (updateStatsDisplay resp.stats, []) else (display, [])
  | .transportError _ => (display, [])

/-- A stats tick that failed: transport failure, or `success == false`. -/
def statsTickFailed (result : AjaxResult StatsResponse) : Bool :=
  match result with
  | .success resp => !resp.success
  | .transportError _ => true

/-- A UTC calendar instant as `Date.prototype.toISOString` renders it. -/
structure JsDate where
  year : Nat
  month : Nat
  day : Nat
  hour : Nat
  minute : Nat
  second : Nat
  ms : Nat
  deriving Repr, DecidableEq

/-- `Date.prototype.toISOString()`: `YYYY-MM-DDTHH:mm:ss.sssZ` (years up to
9999 render as exactly four zero-padded digits). -/
def toISOString (d : JsDate) : String :=
  zeroPad 4 d.year ++ "-" ++ zeroPad 2 d.month ++ "-" ++ zeroPad 2 d.day ++
    "T" ++ zeroPad 2 d.hour ++ ":" ++ zeroPad 2 d.minute ++ ":" ++
    zeroPad 2 d.second ++ "." ++ zeroPad 3 d.ms ++ "Z"

/-- `String.prototype.slice(0, n)`: the first `n` characters. -/
def jsSliceZero (s : String) (n : Nat) : String :=
  ⟨s.data.take n⟩

/-- The download filename synthesized on export success (admin.js line 261):
`` `export_${exportType}_${new Date().toISOString().slice(0, 10)}.csv` ``,
where `exportType` is the clicked element's `data-type` value and
`clickDate` the current date. -/
def exportFilename (exportType : String) (clickDate : JsDate) : String :=
  "export_" ++ exportType ++ "_" ++ jsSliceZero (toISOString clickDate) 10 ++ ".csv"

/-- The `YYYY-MM-DD` ISO date, written from the spec's words
("`export_<type>_<YYYY-MM-DD>.csv` using the date at click time") for
comparison with what the code computes. -/
def isoDateSpec (d : JsDate) : String :=
  zeroPad 4 d.year ++ "-" ++ zeroPad 2 d.month ++ "-" ++ zeroPad 2 d.day

/-- `getTimeAgo(dateString)` (admin.js lines 349-370), with the two `Date`
values given in epoch milliseconds.  `Math.floor` on the non-negative
quotients is `Nat` division (the claims consider only timestamps not in the
future). -/
def getTimeAgo (dateMs nowMs : Nat) : String :=
  let seconds := (nowMs - dateMs) / 1000
  if seconds < 60 then "just now"
  else
    let minutes := seconds / 60
    if minutes < 60 then toString minutes ++ "m ago"
    else
      let hours := minutes / 60
      if hours < 24 then toString hours ++ "h ago"
      else
        let days := hours / 24
        if days < 30 then toString days ++ "d ago"
        else
          let months := days / 30
          if months < 12 then toString months ++ "mo ago"
          else
            let years := months / 12
            toString years ++ "y ago"

/-- The format cascade exactly as the claim states it, as a function of the
elapsed time `d` in seconds: `just now` iff `d < 60`; `m ago` with
`m = ⌊d/60⌋` iff `60 ≤ d` and `m < 60`; `h ago` with `h = ⌊m/60⌋` iff
`h < 24`; `d ago` with `k = ⌊h/24⌋` iff `k < 30`; `mo ago` with
`mo = ⌊k/30⌋` iff `mo < 12`; otherwise `y ago` with `y = ⌊mo/12⌋`. -/
def timeAgoSpec (d : Nat) : String :=
  if d < 60 then "just now"
  else if 60 ≤ d ∧ d / 60 < 60 then toString (d / 60) ++ "m ago"
  else if d / 60 / 60 < 24 then toString (d / 60 / 60) ++ "h ago"
  else if d / 60 / 60 / 24 < 30 then toString (d / 60 / 60 / 24) ++ "d ago"
  else if d / 60 / 60 / 24 / 30 < 12 then
    toString (d / 60 / 60 / 24 / 30) ++ "mo ago"
  else toString (d / 60 / 60 / 24 / 30 / 12) ++ "y ago"

/-- C1: the claim says that after a failed status update the select's value
equals its pre-change value and the label equals its pre-change text.  The
code violates this: with pre-change value `"pending"`, label `"PENDING"`, and
the user picking `"cancelled"`, a transport failure leaves the select at
`"cancelled"` (the revert on line 82 addresses the Ajax settings object, not
the element), and an application-level `success:false` additionally leaves
the label showing the spinner markup (nothing restores it on that path). -/
theorem update_status_failure_leaves_select :
    (updateStatusInteraction "pending" "PENDING" ⟨["badge", "bg-primary"], "PENDING"⟩
        "cancelled" (.transportError "timeout")).1.selectValue = "cancelled" ∧
    (updateStatusInteraction "pending" "PENDING" ⟨["badge", "bg-primary"], "PENDING"⟩
        "cancelled" (.transportError "timeout")).1.labelText = "PENDING" ∧
    (updateStatusInteraction "pending" "PENDING" ⟨["badge", "bg-primary"], "PENDING"⟩
        "cancelled" (.success ⟨false, "", "locked"⟩)).1.selectValue = "cancelled" ∧
    (updateStatusInteraction "pending" "PENDING" ⟨["badge", "bg-primary"], "PENDING"⟩
        "cancelled" (.success ⟨false, "", "locked"⟩)).1.labelText = spinnerHtml ∧
    ("cancelled" : String) ≠ "pending" ∧ spinnerHtml ≠ "PENDING" := by
  refine ⟨rfl, rfl, rfl, rfl, by decide, by decide⟩

/-- C2: the claim says that after a failed boolean toggle the checkbox equals
its pre-toggle boolean.  The code violates this for both toggle handlers and
both failure kinds: with the checkbox toggled from `true` to `false`, the
failure branches leave `checked = false`; the `settingsChecked = some true`
components show where the misbound `$(this).prop('checked', !isActive)`
write actually landed (the Ajax settings object). -/
theorem toggle_failure_leaves_checkbox :
    (toggleActiveInteraction true ["bg-success"] "Active"
        (.success ⟨false, "locked"⟩)).row.checked = false ∧
    (toggleActiveInteraction true ["bg-success"] "Active"
        (.success ⟨false, "locked"⟩)).settingsChecked = some true ∧
    (toggleActiveInteraction true ["bg-success"] "Active"
        (.transportError "timeout")).row.checked = false ∧
    (toggleActiveInteraction true ["bg-success"] "Active"
        (.transportError "timeout")).settingsChecked = some true ∧
    (toggleApprovalInteraction true ["bg-success"] "Approved"
        (.success ⟨false, "locked"⟩)).row.checked = false ∧
    (toggleApprovalInteraction true ["bg-success"] "Approved"
        (.transportError "down")).row.checked = false := by
  refine ⟨rfl, rfl, rfl, rfl, rfl, rfl⟩

/-- C3: on a successful status update the badge class is a function of the
acknowledged status; each of the five enumerated statuses maps to its one
badge color, every other status maps to the default `bg-secondary`, and the
success branch of the handler installs exactly `badgeClass new_status`. -/
theorem badgeClass_total_mapping :
    badgeClass "pending" = "bg-primary" ∧
    badgeClass "processing" = "bg-warning" ∧
    badgeClass "confirmed" = "bg-info" ∧
    badgeClass "delivered" = "bg-success" ∧
    badgeClass "cancelled" = "bg-danger" ∧
    (∀ s : String, s ≠ "pending" → s ≠ "processing" → s ≠ "confirmed" →
      s ≠ "delivered" → s ≠ "cancelled" → badgeClass s = "bg-secondary") ∧
    (∀ (preValue preText : String) (badge : Badge) (newStatus ns msg : String),
      (updateStatusInteraction preValue preText badge newStatus
          (.success ⟨true, ns, msg⟩)).1.badge.classes =
        (badge.classes.filter (fun s => s ∉ removedBadgeClasses)) ++ [badgeClass ns]) := by
  refine ⟨rfl, rfl, rfl, rfl, rfl, ?_, ?_⟩
  · intro s h1 h2 h3 h4 h5
    simp [badgeClass, h1, h2, h3, h4, h5]
  · intro preValue preText badge newStatus ns msg
    rfl

/-- Witness for C3: the unknown status `"refunded"` takes the default color. -/
theorem badgeClass_total_mapping_witness :
    badgeClass "refunded" = "bg-secondary" :=
  badgeClass_total_mapping.2.2.2.2.2.1 "refunded" (by decide) (by decide)
    (by decide) (by decide) (by decide)

/-- C5: double application of the theme toggle restores the document root's
theme attribute (for the two-value theme state the script manages), each
toggle persists the applied theme to storage, and the saved-theme check on
load applies any stored value to the attribute. -/
theorem theme_toggle_roundtrip_persist (s : ThemeState)
    (h : s.attr = some "light" ∨ s.attr = some "dark") :
    ((themeToggle (themeToggle s).1).1).attr = s.attr ∧
    (themeToggle s).1.storage = (themeToggle s).1.attr ∧
    (∀ (t : ThemeState) (v : String), t.storage = some v →
      (applySavedTheme t).attr = some v) := by
  refine ⟨?_, rfl, ?_⟩
  · rcases h with h | h <;> simp [themeToggle, h]
  · intro t v hv
    simp [applySavedTheme, hv]

/-- Witness for C5 at the state with attribute `light` and empty storage. -/
theorem theme_toggle_roundtrip_persist_witness :
    ((themeToggle (themeToggle ⟨some "light", none⟩).1).1).attr =
      (⟨some "light", none⟩ : ThemeState).attr ∧
    (applySavedTheme ⟨none, some "dark"⟩).attr = some "dark" := by
  have h := theme_toggle_roundtrip_persist ⟨some "light", none⟩ (Or.inl rfl)
  exact ⟨h.1, h.2.2 ⟨none, some "dark"⟩ "dark" rfl⟩

/-- C6: with zero selected items the bulk-action handler shows one warning
toast, issues no confirmation prompt, logs nothing, and issues no request;
with at least one selected item it issues a confirmation prompt naming the
action and the count, logs the intent exactly when confirmed, and still
issues no request. -/
theorem bulk_action_empty_guard (action : String) (vals : List String)
    (confirmResult : Bool) :
    (vals = [] →
      bulkActionHandler action vals confirmResult =
        { toasts := [⟨"Warning", "Please select items to perform this action", "warning"⟩]
          confirmPrompt := none, logged := none, requests := [] }) ∧
    (vals ≠ [] →
      (bulkActionHandler action vals confirmResult).confirmPrompt =
        some ("Are you sure you want to " ++ action ++ " " ++
          toString vals.length ++ " selected item(s)?") ∧
      (bulkActionHandler action vals confirmResult).logged =
        (if confirmResult then some ("Bulk " ++ action ++ " for IDs:", vals)
         else none) ∧
      (bulkActionHandler action vals confirmResult).requests = []) := by
  constructor
  · rintro rfl
    rfl
  · intro h
    have hlen : vals.length ≠ 0 := by
      simpa [List.length_eq_zero] using h
    cases confirmResult <;> simp [bulkActionHandler, hlen]

/-- Witness for C6: empty selection aborts with a warning; a one-element
selection prompts with the action name and count 1 and issues no request. -/
theorem bulk_action_empty_guard_witness :
    bulkActionHandler "delete" [] true =
      { toasts := [⟨"Warning", "Please select items to perform this action", "warning"⟩]
        confirmPrompt := none, logged := none, requests := [] } ∧
    (bulkActionHandler "delete" ["7"] true).confirmPrompt =
      some "Are you sure you want to delete 1 selected item(s)?" ∧
    (bulkActionHandler "delete" ["7"] true).requests = [] := by
  have h0 := bulk_action_empty_guard "delete" [] true
  have h1 := bulk_action_empty_guard "delete" ["7"] true
  exact ⟨h0.1 rfl, ((h1.2 (by decide)).1).trans (by decide), (h1.2 (by decide)).2.2⟩

/-- C7: for the state-changing handlers, an application-level `success:false`
response produces exactly one error toast carrying the response's message,
and a transport failure produces exactly one error toast carrying the
handler's generic failure string plus the transport error text; in
particular the status-update response with message `"locked"` produces an
error toast whose message is `"locked"`. -/
theorem failure_toast_messages (preValue preText : String) (badge : Badge)
    (newStatus ns msg err : String) (preChecked : Bool) (bc : List String)
    (bt : String) :
    (updateStatusInteraction preValue preText badge newStatus
        (.success ⟨false, ns, msg⟩)).2 = [⟨"Error", msg, "danger"⟩] ∧
    (updateStatusInteraction preValue preText badge newStatus
        (.transportError err)).2 =
      [⟨"Error", "Failed to update status: " ++ err, "danger"⟩] ∧
    (toggleActiveInteraction preChecked bc bt (.success ⟨false, msg⟩)).toasts =
      [⟨"Error", msg, "danger"⟩] ∧
    (toggleActiveInteraction preChecked bc bt (.transportError err)).toasts =
      [⟨"Error", "Failed to update user status: " ++ err, "danger"⟩] ∧
    (toggleApprovalInteraction preChecked bc bt (.success ⟨false, msg⟩)).toasts =
      [⟨"Error", msg, "danger"⟩] ∧
    (toggleApprovalInteraction preChecked bc bt (.transportError err)).toasts =
      [⟨"Error", "Failed to update review: " ++ err, "danger"⟩] ∧
    (updateStatusInteraction preValue preText badge newStatus
        (.success ⟨false, ns, "locked"⟩)).2 = [⟨"Error", "locked", "danger"⟩] :=
  ⟨rfl, rfl, rfl, rfl, rfl, rfl, rfl⟩

/-- C8: a failed stats tick (transport failure or `success:false`) shows no
toast and leaves every display slot unchanged. -/
theorem stats_tick_failure_silent (display : StatsDisplay)
    (result : AjaxResult StatsResponse) (h : statsTickFailed result = true) :
    dashboardStatsTick display result = (display, []) := by
  cases result with
  | success resp =>
      have hs : resp.success = false := by
        simpa [statsTickFailed] using h
      simp [dashboardStatsTick, hs]
  | transportError e => rfl

/-- Witness for C8 at a concrete display and a transport failure. -/
theorem stats_tick_failure_silent_witness :
    dashboardStatsTick ⟨"12", "₹45,000", "₹3750.50", "3"⟩
        (.transportError "timeout") =
      (⟨"12", "₹45,000", "₹3750.50", "3"⟩, []) :=
  stats_tick_failure_silent ⟨"12", "₹45,000", "₹3750.50", "3"⟩
    (.transportError "timeout") (by decide)

/-- C10: for a timestamp not in the future, `getTimeAgo` returns exactly the
format cascade of `timeAgoSpec` applied to the elapsed seconds. -/
theorem getTimeAgo_format_cascade (dateMs nowMs : Nat) (h : dateMs ≤ nowMs) :
    getTimeAgo dateMs nowMs = timeAgoSpec ((nowMs - dateMs) / 1000) := by
  have key : ∀ d : Nat,
      (if d < 60 then "just now"
       else if d / 60 < 60 then toString (d / 60) ++ "m ago"
       else if d / 60 / 60 < 24 then toString (d / 60 / 60) ++ "h ago"
       else if d / 60 / 60 / 24 < 30 then toString (d / 60 / 60 / 24) ++ "d ago"
       else if d / 60 / 60 / 24 / 30 < 12 then
         toString (d / 60 / 60 / 24 / 30) ++ "mo ago"
       else toString (d / 60 / 60 / 24 / 30 / 12) ++ "y ago") = timeAgoSpec d := by
    intro d
    unfold timeAgoSpec
    split_ifs <;> first | rfl | (exfalso; omega)
  exact key ((nowMs - dateMs) / 1000)

/-- Witness for C10: two hours of elapsed time. -/
theorem getTimeAgo_format_cascade_witness :
    getTimeAgo 0 7200000 = timeAgoSpec ((7200000 - 0) / 1000) :=
  getTimeAgo_format_cascade 0 7200000 (by decide)

/-- Accumulator lemma for the core decimal printer: the accumulator is simply
appended to the digits produced from the empty accumulator. -/
theorem toDigitsCore_append (b : Nat) :
    ∀ (f n : Nat) (acc : List Char),
      Nat.toDigitsCore b f n acc = Nat.toDigitsCore b f n [] ++ acc := by
  intro f
  induction f with
  | zero => intro n acc; simp [Nat.toDigitsCore]
  | succ f ih =>
      intro n acc
      simp only [Nat.toDigitsCore]
      by_cases hdiv : n / b = 0
      · simp [hdiv]
      · simp only [hdiv, if_false]
        rw [ih (n / b) (Nat.digitChar (n % b) :: acc),
          ih (n / b) [Nat.digitChar (n % b)], List.append_assoc]
        rfl

/-- With enough fuel, the core decimal printer produces exactly the decimal
digits of `n` (most significant first), rendered by `Nat.digitChar`. -/
theorem toDigitsCore_eq_digits :
    ∀ (f n : Nat), n ≠ 0 → n < 10 ^ f →
      Nat.toDigitsCore 10 f n [] =
        ((Nat.digits 10 n).map Nat.digitChar).reverse := by
  intro f
  induction f with
  | zero =>
      intro n hn hlt
      simp at hlt
      omega
  | succ f ih =>
      intro n hn hlt
      simp only [Nat.toDigitsCore]
      by_cases hdiv : n / 10 = 0
      · have hn10 : n < 10 := by omega
        rw [Nat.digits_of_lt 10 n hn hn10]
        simp [hdiv, Nat.mod_eq_of_lt hn10]
      · simp only [hdiv, if_false]
        have hlt' : n / 10 < 10 ^ f := by
          rw [Nat.div_lt_iff_lt_mul (by norm_num)]
          calc n < 10 ^ (f + 1) := hlt
            _ = 10 ^ f * 10 := by ring
        rw [toDigitsCore_append, ih (n / 10) hdiv hlt',
          Nat.digits_def' (by norm_num : (1 : ℕ) < 10) (Nat.pos_of_ne_zero hn)]
        simp

/-- `Nat.repr` of a positive number is the reversed digit list of `n`
rendered through `Nat.digitChar`. -/
theorem natRepr_eq_digits (n : Nat) (hn : n ≠ 0) :
    Nat.repr n = String.mk (((Nat.digits 10 n).map Nat.digitChar).reverse) := by
  have hfuel : n < 10 ^ (n + 1) := by
    calc n < 10 ^ n := Nat.lt_pow_self (by norm_num) n
      _ ≤ 10 ^ (n + 1) := Nat.pow_le_pow_right (by norm_num) (Nat.le_succ n)
  unfold Nat.repr Nat.toDigits
  rw [toDigitsCore_eq_digits (n + 1) n hn hfuel]
  rfl

/-- `Nat.digitChar` is injective below 10. -/
theorem digitChar_inj_lt (a b : Nat) (ha : a < 10) (hb : b < 10)
    (h : Nat.digitChar a = Nat.digitChar b) : a = b := by
  interval_cases a <;> interval_cases b <;> revert h <;> decide

/-- Lists of decimal digits rendered through `Nat.digitChar` are determined
by the digits. -/
theorem map_digitChar_inj :
    ∀ (l1 l2 : List Nat), (∀ x ∈ l1, x < 10) → (∀ x ∈ l2, x < 10) →
      l1.map Nat.digitChar = l2.map Nat.digitChar → l1 = l2 := by
  intro l1
  induction l1 with
  | nil =>
      intro l2 _ _ h
      cases l2 with
      | nil => rfl
      | cons b t => simp at h
  | cons a t ih =>
      intro l2 h1 h2 h
      cases l2 with
      | nil => simp at h
      | cons b t2 =>
          simp only [List.map_cons, List.cons.injEq] at h
          have ha : a < 10 := h1 a (by simp)
          have hb : b < 10 := h2 b (by simp)
          have hab : a = b := digitChar_inj_lt a b ha hb h.1
          have ht : t = t2 := ih t2 (fun x hx => h1 x (by simp [hx]))
            (fun x hx => h2 x (by simp [hx])) h.2
          rw [hab, ht]

/-- `Nat.repr` is injective: distinct naturals render to distinct decimal
strings. -/
theorem natRepr_injective (m n : Nat) (h : Nat.repr m = Nat.repr n) :
    m = n := by
  by_cases hm : m = 0 <;> by_cases hn : n = 0
  · omega
  · exfalso
    rw [hm, natRepr_eq_digits n hn] at h
    have hdata : ['0'] =
        ((Nat.digits 10 n).map Nat.digitChar).reverse := congrArg String.data h
    have hmap : (Nat.digits 10 n).map Nat.digitChar = ['0'] := by
      have := congrArg List.reverse hdata
      simpa using this.symm
    have hdig : Nat.digits 10 n = [0] :=
      map_digitChar_inj (Nat.digits 10 n) [0]
        (fun x hx => Nat.digits_lt_base (by norm_num) hx)
        (by intro x hx; simp at hx; omega) (by simpa using hmap)
    have := Nat.ofDigits_digits 10 n
    rw [hdig] at this
    simp [Nat.ofDigits] at this
    omega
  · exfalso
    rw [hn, natRepr_eq_digits m hm] at h
    have hdata : ((Nat.digits 10 m).map Nat.digitChar).reverse =
        ['0'] := congrArg String.data h
    have hmap : (Nat.digits 10 m).map Nat.digitChar = ['0'] := by
      have := congrArg List.reverse hdata
      simpa using this
    have hdig : Nat.digits 10 m = [0] :=
      map_digitChar_inj (Nat.digits 10 m) [0]
        (fun x hx => Nat.digits_lt_base (by norm_num) hx)
        (by intro x hx; simp at hx; omega) (by simpa using hmap)
    have := Nat.ofDigits_digits 10 m
    rw [hdig] at this
    simp [Nat.ofDigits] at this
    omega
  · rw [natRepr_eq_digits m hm, natRepr_eq_digits n hn] at h
    have hdata : ((Nat.digits 10 m).map Nat.digitChar).reverse =
        ((Nat.digits 10 n).map Nat.digitChar).reverse := congrArg String.data h
    have hmap : (Nat.digits 10 m).map Nat.digitChar =
        (Nat.digits 10 n).map Nat.digitChar := by
      have := congrArg List.reverse hdata
      simpa using this
    have hdig : Nat.digits 10 m = Nat.digits 10 n :=
      map_digitChar_inj _ _
        (fun x hx => Nat.digits_lt_base (by norm_num) hx)
        (fun x hx => Nat.digits_lt_base (by norm_num) hx) hmap
    exact Nat.digits_inj_iff.mp hdig

/-- Paragraph-level helper: a `String` is determined by its character list. -/
theorem string_eq_of_data_eq (s t : String) (h : s.data = t.data) : s = t := by
  cases s
  cases t
  exact congrArg String.mk h

/-- Character data of an appended string. -/
theorem string_data_append (s t : String) : (s ++ t).data = s.data ++ t.data := by
  cases s
  cases t
  rfl

/-- `toastId` is injective: ids built from distinct `Date.now()` values are
distinct. -/
theorem toastId_injective (a b : Nat) (h : toastId a = toastId b) : a = b := by
  have hdata : ("toast-" : String).data ++ (toString a).data =
      ("toast-" : String).data ++ (toString b).data := by
    have h0 := congrArg String.data h
    simpa [toastId, string_data_append] using h0
  have h2 : (toString a).data = (toString b).data :=
    List.append_cancel_left hdata
  exact natRepr_injective a b (string_eq_of_data_eq _ _ h2)

/-- C4 counterexample: the claim as stated is false — two `showToast` calls
that read the same `Date.now()` millisecond produce the same id, so the ids
of one page session are not always pairwise distinct. -/
theorem toast_id_collision :
    sessionToastIds [1700000000000, 1700000000000] =
      ["toast-1700000000000", "toast-1700000000000"] ∧
    ¬ (sessionToastIds [1700000000000, 1700000000000]).Pairwise (· ≠ ·) := by
  constructor
  · rfl
  · decide

/-- C4 amended: toast ids created during one page session are pairwise
distinct provided their `Date.now()` creation milliseconds are pairwise
distinct (two toasts created in the same millisecond share one id). -/
theorem toast_ids_distinct_of_distinct_times (times : List Nat)
    (h : times.Pairwise (· ≠ ·)) :
    (sessionToastIds times).Pairwise (· ≠ ·) := by
  unfold sessionToastIds
  exact List.Pairwise.map toastId
    (fun a b hne hEq => hne (toastId_injective a b hEq)) h

/-- Witness for the amended C4 at three distinct milliseconds. -/
theorem toast_ids_distinct_witness :
    (sessionToastIds [1700000000000, 1700000000001, 1700000000002]).Pairwise
      (· ≠ ·) :=
  toast_ids_distinct_of_distinct_times
    [1700000000000, 1700000000001, 1700000000002] (by decide)

/-- Zero padding to width `w` yields exactly `w` characters whenever the bare
decimal rendering fits in `w` characters. -/
theorem zeroPad_data_length (w n : Nat) (h : (Nat.repr n).length ≤ w) :
    (zeroPad w n).data.length = w := by
  have hdata : (Nat.repr n).data.length = (Nat.repr n).length := by
    cases hr : Nat.repr n
    rfl
  simp only [zeroPad, List.length_append, List.length_replicate, hdata]
  omega

/-- The first ten characters of `toISOString` are the zero-padded
`YYYY-MM-DD` date (for the in-range dates `Date` produces). -/
theorem isoDateSpec_data_length (d : JsDate) (hy : d.year < 10000)
    (hm : d.month < 100) (hd : d.day < 100) :
    (isoDateSpec d).data.length = 10 := by
  have h4 : (Nat.repr d.year).length ≤ 4 :=
    Nat.repr_length d.year 4 (by norm_num) (by omega)
  have h2m : (Nat.repr d.month).length ≤ 2 :=
    Nat.repr_length d.month 2 (by norm_num) (by omega)
  have h2d : (Nat.repr d.day).length ≤ 2 :=
    Nat.repr_length d.day 2 (by norm_num) (by omega)
  have hdash : ("-" : String).data = ['-'] := rfl
  simp [isoDateSpec, string_data_append, List.length_append, hdash,
    zeroPad_data_length 4 d.year h4, zeroPad_data_length 2 d.month h2m,
    zeroPad_data_length 2 d.day h2d]

/-- `toISOString(...).slice(0, 10)` equals the `YYYY-MM-DD` date. -/
theorem iso_slice_eq_isoDate (d : JsDate) (hy : d.year < 10000)
    (hm : d.month < 100) (hd : d.day < 100) :
    jsSliceZero (toISOString d) 10 = isoDateSpec d := by
  have hsplit : (toISOString d).data = (isoDateSpec d).data ++
      (("T" ++ zeroPad 2 d.hour ++ ":" ++ zeroPad 2 d.minute ++ ":" ++
        zeroPad 2 d.second ++ "." ++ zeroPad 3 d.ms ++ "Z") : String).data := by
    simp [toISOString, isoDateSpec, string_data_append]
  unfold jsSliceZero
  rw [hsplit, ← isoDateSpec_data_length d hy hm hd, List.take_left]

/-- C9: the synthesized download filename is
`export_<type>_<YYYY-MM-DD>.csv`, with `<type>` the clicked element's
`data-type` value and `<YYYY-MM-DD>` the ISO date at click time. -/
theorem export_filename_spec (exportType : String) (d : JsDate)
    (hy : d.year < 10000) (hm : d.month < 100) (hd : d.day < 100) :
    exportFilename exportType d =
      "export_" ++ exportType ++ "_" ++ isoDateSpec d ++ ".csv" := by
  unfold exportFilename
  rw [iso_slice_eq_isoDate d hy hm hd]

/-- Witness for C9 at a concrete click date. -/
theorem export_filename_spec_witness :
    exportFilename "orders" ⟨2026, 10, 12, 9, 30, 0, 0⟩ =
      "export_" ++ "orders" ++ "_" ++ isoDateSpec ⟨2026, 10, 12, 9, 30, 0, 0⟩ ++
        ".csv" :=
  export_filename_spec "orders" ⟨2026, 10, 12, 9, 30, 0, 0⟩ (by decide)
    (by decide) (by decide)

end AdminDashboard
